import Mathlib

/-!
Shallow embedding of `src/renewal.py` (XServerGamesRenewal), the XServer GAMEs
automatic lease-renewal script.  The browser world is modelled by explicit
environments of booleans (which elements are visible, which awaited actions
raise) and the observable behaviour of a run is an explicit event trace
(click attempts, successful click dispatches, notifications, teardown steps).
Every definition is translated from the Python source; definitions whose doc
comment says so are modelled from the specification for comparison.
-/

/-! ## Time extraction (`get_remaining_time`, regex `残り\s*(\d+)\s*時間`) -/

/-- Whitespace characters matched by the Python regex class `\s`
(ASCII whitespace plus the ideographic space). -/
def isWsChar (c : Char) : Bool :=
  c = ' ' || c = '\t' || c = '\n' || c = '\r' || c = '\x0b' || c = '\x0c' || c = '　'

/-- Skip a (possibly empty) run of whitespace: the `\s*` parts of the pattern. -/
def dropWs : List Char → List Char
  | c :: cs => if isWsChar c then dropWs cs else c :: cs
  | [] => []

/-- Consume a maximal run of decimal digits, accumulating their base-10
value, as `int(match.group(1))` does for the `(\d+)` capture. -/
def readDigitsAux : Nat → List Char → Nat × List Char
  | acc, c :: cs =>
      if c.isDigit then readDigitsAux (acc * 10 + (c.toNat - '0'.toNat)) cs
      else (acc, c :: cs)
  | acc, [] => (acc, [])

/-- Try to match the fixed pattern `残り\s*(\d+)\s*時間` at the head of the
character list, returning the parsed hour count on success. -/
def matchAt : List Char → Option Nat
  | '残' :: 'り' :: rest =>
      match dropWs rest with
      | c :: cs =>
          if c.isDigit then
            match readDigitsAux 0 (c :: cs) with
            | (n, rest2) =>
                match dropWs rest2 with
                | '時' :: '間' :: _ => some n
                | _ => none
          else none
      | [] => none
  | _ => none

/-- Leftmost search of the pattern in a text, as `re.search` does. -/
def findMatch : List Char → Option Nat
  | [] => none
  | c :: cs =>
      match matchAt (c :: cs) with
      | some n => some n
      | none => findMatch cs

/-- Outcome of `get_remaining_time`: parsed hours, or the element with the
marker text was found but the pattern did not match, or no element appeared
before the 15s timeout (distinct error messages in the source). -/
inductive ExtractResult
  | ok (hours : Nat)
  | patternMismatch (msg : String)
  | notFound (msg : String)
deriving Repr, DecidableEq

/-- Error message set when the wait for the `残り`/`時間` element times out
(the source formats the Playwright timeout exception into the message). -/
def nfMsg : String := "獲取剩餘時間失敗: Timeout 15000ms exceeded."

/-- Error message set when the located text does not contain the pattern. -/
def pmMsg : String := "在定位到的區域內，無法從文本中匹配到 残り X 時間 模式。"

/-- Model of `get_remaining_time`: the environment supplies the inner text of the
first visible element matching `*:has-text(残り):has-text(時間)`, or `none`
when no such element becomes visible within the timeout. -/
def get_remaining_time (timeText : Option String) : ExtractResult :=
  match timeText with
  | none => ExtractResult.notFound nfMsg
  | some t =>
      match findMatch t.toList with
      | some n => ExtractResult.ok n
      | none => ExtractResult.patternMismatch pmMsg

/-! ## Click methods and events -/

/-- The concrete interaction methods appearing in the source:
`click(force=True, ...)`, `dispatch_event("click")`, `evaluate("el => el.click()")`,
the stage-2 combined JS fallback, and (never used by the source, named by the
spec) a standard non-forced `click()`. -/
inductive ClickAction
  | clickForce
  | clickStandard
  | dispatchEvent
  | jsClick
  | jsCombo
deriving Repr, DecidableEq, BEq

/-- The logical click targets of the script. -/
inductive Target
  | manageBtn
  | entryBtn
  | extendGreenBtn
  | confirmBtn
  | extendBlueBtn
deriving Repr, DecidableEq, BEq

/-- The visible label of each target, from the literal selector strings. -/
def labelOf : Target → String
  | Target.manageBtn => "ゲーム管理"
  | Target.entryBtn => "アップグレード・期限延長"
  | Target.extendGreenBtn => "期限を延長する"
  | Target.confirmBtn => "確認"
  | Target.extendBlueBtn => "期限を延長する"

/-- Observable events of a run: a click attempt on a resolved element, a
successfully dispatched click, a Telegram summary notification, and the two
teardown steps of the `finally` block. -/
inductive Event
  | clickAttempt (t : Target)
  | click (t : Target) (m : ClickAction)
  | notify (title body : String)
  | closeBrowser
  | stopPw
deriving Repr, DecidableEq, BEq

/-- The stage coroutines invoked by `run`. -/
inductive StageCall
  | setup
  | login
  | extract
  | extend
deriving Repr, DecidableEq, BEq

/-- Notifications contained in an event trace, in order. -/
def notifications (evs : List Event) : List (String × String) :=
  evs.filterMap fun e =>
    match e with
    | Event.notify t b => some (t, b)
    | _ => none

/-- Number of interaction events (attempts or dispatched clicks). -/
def interactionCount (evs : List Event) : Nat :=
  (evs.filter fun e =>
    match e with
    | Event.clickAttempt _ => true
    | Event.click _ _ => true
    | _ => false).length

/-- Number of dispatched clicks on targets carrying a given label. -/
def clicksWithLabel (l : String) (evs : List Event) : Nat :=
  (evs.filter fun e =>
    match e with
    | Event.click t _ => labelOf t == l
    | _ => false).length

/-- Number of dispatched clicks on one particular target. -/
def clicksOnTarget (t : Target) (evs : List Event) : Nat :=
  (evs.filter fun e =>
    match e with
    | Event.click t2 _ => t2 == t
    | _ => false).length

/-- Number of dispatched clicks on renewal-panel controls (every click
target other than the login-stage management button). -/
def renewalActionClicks (evs : List Event) : Nat :=
  (evs.filter fun e =>
    match e with
    | Event.click t _ => t != Target.manageBtn
    | _ => false).length

/-- Number of `browser.close()` teardown events in a trace. -/
def countClose (evs : List Event) : Nat :=
  (evs.filter fun e =>
    match e with
    | Event.closeBrowser => true
    | _ => false).length

/-- Number of `playwright.stop()` teardown events in a trace. -/
def countStop (evs : List Event) : Nat :=
  (evs.filter fun e =>
    match e with
    | Event.stopPw => true
    | _ => false).length

/-! ## Click escalation loops -/

/-- The fixed method order of the three-way click loops in
`extend_contract` (`normal click (force)`, `dispatch`, `js force`). -/
def extendStageMethods : List ClickAction :=
  [ClickAction.clickForce, ClickAction.dispatchEvent, ClickAction.jsClick]

/-- The single method used by `robust_click` inside `login`
(`locator.dispatch_event("click")` and nothing else). -/
def loginRobustClickMethods : List ClickAction :=
  [ClickAction.dispatchEvent]

/-- Whether a method bypasses normal hit-testing / actionability checks:
only a plain, non-forced `click()` respects them; `click(force=True)`
disables actionability checks, and event dispatch / JS clicks never
perform hit-testing at all. -/
def bypassesHitTesting : ClickAction → Bool
  | ClickAction.clickStandard => false
  | _ => true

/-- Modelled from the spec: the escalation order the specification
describes — a standard hit-testing click, then a forced click, then a
scripted click.  Kept for comparison with `extendStageMethods`. -/
def specClickEscalation : List ClickAction :=
  [ClickAction.clickStandard, ClickAction.clickForce, ClickAction.jsClick]

/-- One pass of the three-method loop: given which of the three awaited
method calls raise, return the first method that does not raise. -/
def tryThree (fR dR jR : Bool) : Option ClickAction :=
  if !fR then some ClickAction.clickForce
  else if !dR then some ClickAction.dispatchEvent
  else if !jR then some ClickAction.jsClick
  else none

/-- The raise flag of each method of the loop (methods outside the loop
count as raising, i.e. never chosen by it). -/
def raiseFlagOf (fR dR jR : Bool) : ClickAction → Bool
  | ClickAction.clickForce => fR
  | ClickAction.dispatchEvent => dR
  | ClickAction.jsClick => jR
  | _ => true

/-! ## `login` -/

/-- One child frame of the page, as seen by the login-stage iframe scan:
whether the `tr:has-text(ID) >> a:has-text(ゲーム管理)` locator counts at
least one element there, and whether the awaited wait/dispatch raises. -/
structure FrameInfo where
  hasButton : Bool
  clickRaises : Bool
deriving Repr, DecidableEq, BEq

/-- Environment of one `login` invocation. -/
structure LoginEnv where
  preException : Bool
  otpVisible : Bool
  mainHasButton : Bool
  mainClickRaises : Bool
  frames : List FrameInfo
  panelMarker : Bool
deriving Repr, DecidableEq, BEq

/-- Result of `login`: the returned boolean, the `error_message` field,
and the interaction events performed. -/
structure LoginResult where
  ok : Bool
  errMsg : Option String
  events : List Event
deriving Repr, DecidableEq, BEq

/-- Message set on the step-up-verification (認証コード) page. -/
def otpMsg : String := "需要郵箱驗證碼，請關閉「不審なログイン時の認証」"

/-- Message set when no click on the management button succeeded
(the source interpolates the server id into this message). -/
def clickFailMsg : String := "終極策略失敗：無法點擊管理按鈕。"

/-- Message set when the post-click panel landmark never became visible. -/
def panelValidateFailMsg : String := "點擊後，未在管理頁面上找到標誌性元素，判定進入失敗。"

/-- Message set by the catch-all handler of `login`. -/
def loginCriticalMsg : String := "登錄或點擊流程發生未知錯誤"

/-- Model of `robust_click`: wait for visibility then `dispatch_event("click")`,
swallowing any exception; `clicked` becomes true only if neither raises. -/
def robustClickEvents (raises : Bool) : Bool × List Event :=
  if raises then (false, [Event.clickAttempt Target.manageBtn])
  else (true, [Event.clickAttempt Target.manageBtn,
               Event.click Target.manageBtn ClickAction.dispatchEvent])

/-- Stage 2/2 of the login click strategy: scan child frames in order,
attempting `robust_click` in each frame whose locator count is positive,
stopping at the first success (`break` once `clicked` is true). -/
def frameSearch : List FrameInfo → Bool × List Event
  | [] => (false, [])
  | f :: fs =>
      if f.hasButton then
        if (robustClickEvents f.clickRaises).1 then robustClickEvents f.clickRaises
        else ((frameSearch fs).1, (robustClickEvents f.clickRaises).2 ++ (frameSearch fs).2)
      else frameSearch fs

/-- Stage 1/2: the main page, attempted only when the locator count there
is positive. -/
def mainAttempt (le : LoginEnv) : Bool × List Event :=
  if le.mainHasButton then robustClickEvents le.mainClickRaises else (false, [])

/-- The combined click search of `login`: main page first, then the
iframe scan only if the main page did not produce a click. -/
def loginSearch (le : LoginEnv) : Bool × List Event :=
  if (mainAttempt le).1 then mainAttempt le
  else ((frameSearch le.frames).1, (mainAttempt le).2 ++ (frameSearch le.frames).2)

/-- Model of `login`: navigate and submit credentials (any exception there is the
catch-all failure), detect the step-up-verification page, run the click
strategy, then validate panel entry by the `アップグレード・期限延長`
landmark element. -/
def login (le : LoginEnv) : LoginResult :=
  if le.preException then
    { ok := false, errMsg := some loginCriticalMsg, events := [] }
  else if le.otpVisible then
    { ok := false, errMsg := some otpMsg, events := [] }
  else
    if !(loginSearch le).1 then
      { ok := false, errMsg := some clickFailMsg, events := (loginSearch le).2 }
    else if le.panelMarker then
      { ok := true, errMsg := none, events := (loginSearch le).2 }
    else
      { ok := false, errMsg := some panelValidateFailMsg, events := (loginSearch le).2 }

/-! ## `extend_contract` -/

/-- Environment of one `extend_contract` invocation: visibility of the
controls of the four stages and the raise flags of each awaited click
method (`e_f`/`e_d`/`e_j` = force click / dispatch event / JS click). -/
structure ExtendEnv where
  entryVisible : Bool
  e1f : Bool
  e1d : Bool
  e1j : Bool
  stage2Hit : Bool
  stage2Fallback : Bool
  e2f : Bool
  e2d : Bool
  e2j : Bool
  e2combo : Bool
  confirmVisible : Bool
  e3f : Bool
  e3d : Bool
  e3j : Bool
  e3last : Bool
  successMarker : Bool
  stage4Hit : Bool
  stage4Fallback : Bool
  e4f : Bool
  e4d : Bool
  e4j : Bool
deriving Repr, DecidableEq, BEq

/-- Result of `extend_contract`: the returned boolean, whether
`renewal_status` was set to `Success`, the `error_message`, and the click
events dispatched. -/
structure ExtendResult where
  ok : Bool
  statusSuccess : Bool
  errMsg : Option String
  events : List Event
deriving Repr, DecidableEq, BEq

/-- The catch-all handler of `extend_contract`: prefix the raised message
with `續期失敗: ` and return `False`. -/
def extendFail (evs : List Event) (m : String) : ExtendResult :=
  { ok := false, statusSuccess := false,
    errMsg := some ("續期失敗: " ++ m), events := evs }

/-- Outcome of stage 3's confirmation-dialog handling: no dialog appeared
(not an error), the dialog was clicked by some method, or the final
uncaught JS fallback raised. -/
inductive ConfirmStep
  | noDialog
  | clicked (m : ClickAction)
  | uncaughtRaise
deriving Repr, DecidableEq, BEq

/-- Stage 3 confirmation handling: when a confirmation button is visible,
run the three-method loop; if all three raise, fall back to one more JS
click whose exception is NOT caught by the loop. -/
def confirmStep (e : ExtendEnv) : ConfirmStep :=
  if e.confirmVisible then
    match tryThree e.e3f e.e3d e.e3j with
    | some m3 => ConfirmStep.clicked m3
    | none =>
        if !e.e3last then ConfirmStep.clicked ClickAction.jsClick
        else ConfirmStep.uncaughtRaise
  else ConfirmStep.noDialog

/-- The click events dispatched by stage 3's confirmation handling. -/
def confirmClickEvents (e : ExtendEnv) : List Event :=
  match confirmStep e with
  | ConfirmStep.clicked m3 => [Event.click Target.confirmBtn m3]
  | _ => []

/-- Model of `extend_contract`, the four-stage renewal flow: stage 1 clicks the
entry button, stage 2 clicks the green extension button (three methods
plus a combined-JS fallback), stage 3 optionally clicks a confirmation
button then waits up to 90s for a success message, stage 4 clicks the
final blue extension button; only then is `renewal_status` set. -/
def extend_contract (e : ExtendEnv) : ExtendResult :=
  if !e.entryVisible then
    extendFail [] "找不到入口按鈕 アップグレード・期限延長"
  else
    match tryThree e.e1f e.e1d e.e1j with
    | none => extendFail [] "第一階段入口點擊失敗"
    | some m1 =>
        let evs1 := [Event.click Target.entryBtn m1]
        if !(e.stage2Hit || e.stage2Fallback) then
          extendFail evs1 "第二階段：找不到任何可點按鈕"
        else
          match
            (match tryThree e.e2f e.e2d e.e2j with
             | some m => some m
             | none => if !e.e2combo then some ClickAction.jsCombo else none) with
          | none => extendFail evs1 "第二階段所有點擊方式失敗"
          | some m2 =>
              let evs2 := evs1 ++ [Event.click Target.extendGreenBtn m2]
              if confirmStep e = ConfirmStep.uncaughtRaise then
                extendFail evs2 "確認按鈕強制點擊異常"
              else
                let evs3 := evs2 ++ confirmClickEvents e
                if !e.successMarker then
                  extendFail evs3 "第三階段：等待成功訊息超時"
                else if !(e.stage4Hit || e.stage4Fallback) then
                  extendFail evs3 "第四階段：找不到 期限を延長する 藍色按鈕"
                else
                  match tryThree e.e4f e.e4d e.e4j with
                  | none => extendFail evs3 "第四階段最終按鈕點擊失敗"
                  | some m4 =>
                      { ok := true, statusSuccess := true, errMsg := none,
                        events := evs3 ++ [Event.click Target.extendBlueBtn m4] }

/-! ## `run` -/

/-- A truly unexpected fault surfacing inside the top-level `try` of
`run`, at one of the points between stage calls. -/
inductive FaultPoint
  | beforeLogin
  | beforeExtract
  | beforeDecide
deriving Repr, DecidableEq, BEq

/-- Environment of a whole run. -/
structure RunEnv where
  pwStartOk : Bool
  launchOk : Bool
  pageSetupOk : Bool
  loginEnv : LoginEnv
  timeText : Option String
  extendEnv : ExtendEnv
  fault : Option FaultPoint
deriving Repr, DecidableEq, BEq

/-- Result of `setup_browser`: the returned boolean, which resources were
assigned before any failure (`_pw` from `start()`, `browser` from
`launch()`), and the `error_message`. -/
structure SetupResult where
  ok : Bool
  pwAcquired : Bool
  browserAcquired : Bool
  errMsg : Option String
deriving Repr, DecidableEq, BEq

/-- Message set by the catch-all handler of `setup_browser`. -/
def setupFailMsg : String := "瀏覽器啟動失敗"

/-- Model of `setup_browser`: `start()` then `launch()` then context/page setup;
an exception at any step leaves the later resources unassigned. -/
def setup_browser (e : RunEnv) : SetupResult :=
  if !e.pwStartOk then
    { ok := false, pwAcquired := false, browserAcquired := false,
      errMsg := some setupFailMsg }
  else if !e.launchOk then
    { ok := false, pwAcquired := true, browserAcquired := false,
      errMsg := some setupFailMsg }
  else if !e.pageSetupOk then
    { ok := false, pwAcquired := true, browserAcquired := true,
      errMsg := some setupFailMsg }
  else
    { ok := true, pwAcquired := true, browserAcquired := true, errMsg := none }

/-- The `finally` block of `run`: `browser.close()` if the browser was
assigned, then `playwright.stop()` if the runtime was assigned. -/
def teardown (pwAcq brAcq : Bool) : List Event :=
  (if brAcq then [Event.closeBrowser] else []) ++
  (if pwAcq then [Event.stopPw] else [])

/-- Final observable state of a run: the `renewal_status` field, the
stage coroutines that were invoked, and the event trace. -/
structure RunResult where
  status : String
  calls : List StageCall
  events : List Event
deriving Repr, DecidableEq, BEq

/-- Notification body of the top-level catch-all handler. -/
def criticalBody : String := "腳本主流程發生嚴重錯誤"

/-- Model of `run`, the main flow: setup → login → extract remaining hours →
(skip when ≥ 24 | extend) with one summary notification per branch, a
top-level catch-all setting `Critical Error`, and the `finally` teardown. -/
def run (e : RunEnv) : RunResult :=
  let s := setup_browser e
  let td := teardown s.pwAcquired s.browserAcquired
  if !s.ok then
    { status := "Unknown", calls := [StageCall.setup],
      events := [Event.notify "❌ 啟動失敗" (s.errMsg.getD "")] ++ td }
  else if e.fault = some FaultPoint.beforeLogin then
    { status := "Critical Error", calls := [StageCall.setup],
      events := [Event.notify "💥 腳本嚴重錯誤" criticalBody] ++ td }
  else
    let l := login e.loginEnv
    if !l.ok then
      { status := "Unknown", calls := [StageCall.setup, StageCall.login],
        events := l.events ++ [Event.notify "❌ 登錄/點擊失敗" (l.errMsg.getD "")] ++ td }
    else if e.fault = some FaultPoint.beforeExtract then
      { status := "Critical Error", calls := [StageCall.setup, StageCall.login],
        events := l.events ++ [Event.notify "💥 腳本嚴重錯誤" criticalBody] ++ td }
    else
      match get_remaining_time e.timeText with
      | ExtractResult.notFound m =>
          { status := "Unknown",
            calls := [StageCall.setup, StageCall.login, StageCall.extract],
            events := l.events ++ [Event.notify "⚠️ 檢查失敗" m] ++ td }
      | ExtractResult.patternMismatch m =>
          { status := "Unknown",
            calls := [StageCall.setup, StageCall.login, StageCall.extract],
            events := l.events ++ [Event.notify "⚠️ 檢查失敗" m] ++ td }
      | ExtractResult.ok h =>
          if e.fault = some FaultPoint.beforeDecide then
            { status := "Critical Error",
              calls := [StageCall.setup, StageCall.login, StageCall.extract],
              events := l.events ++ [Event.notify "💥 腳本嚴重錯誤" criticalBody] ++ td }
          else if 24 ≤ h then
            { status := "Not Needed",
              calls := [StageCall.setup, StageCall.login, StageCall.extract],
              events := l.events ++
                [Event.notify "ℹ️ 無需續期" ("當前剩餘 " ++ toString h ++ " 小時")] ++ td }
          else
            let x := extend_contract e.extendEnv
            if x.ok then
              { status := if x.statusSuccess then "Success" else "Unknown",
                calls := [StageCall.setup, StageCall.login, StageCall.extract,
                          StageCall.extend],
                events := l.events ++ x.events ++
                  [Event.notify "✅ 續期成功" "操作完成，伺服器已續期。"] ++ td }
            else
              { status := if x.statusSuccess then "Success" else "Unknown",
                calls := [StageCall.setup, StageCall.login, StageCall.extract,
                          StageCall.extend],
                events := l.events ++ x.events ++
                  [Event.notify "❌ 續期失敗" (x.errMsg.getD "")] ++ td }

/-- The four values `renewal_status` can hold. -/
def runStatuses : List String :=
  ["Unknown", "Not Needed", "Success", "Critical Error"]

/-- Titles of the seven summary notifications `run` can emit. -/
def runTitles : List String :=
  ["❌ 啟動失敗", "❌ 登錄/點擊失敗", "⚠️ 檢查失敗", "ℹ️ 無需續期",
   "✅ 續期成功", "❌ 續期失敗", "💥 腳本嚴重錯誤"]

/-- Titles of the notifications of the four failure branches. -/
def failTitles : List String :=
  ["❌ 啟動失敗", "❌ 登錄/點擊失敗", "⚠️ 檢查失敗", "❌ 續期失敗"]

/-- Title of a run's first notification, if any. -/
def firstTitle (r : RunResult) : Option String :=
  (notifications r.events).head?.map Prod.fst

/-! ## Trace bookkeeping lemmas -/

theorem notifications_append (a b : List Event) :
    notifications (a ++ b) = notifications a ++ notifications b := by
  simp [notifications]

theorem countClose_append (a b : List Event) :
    countClose (a ++ b) = countClose a + countClose b := by
  simp [countClose]

theorem countStop_append (a b : List Event) :
    countStop (a ++ b) = countStop a + countStop b := by
  simp [countStop]

theorem renewalActionClicks_append (a b : List Event) :
    renewalActionClicks (a ++ b) = renewalActionClicks a + renewalActionClicks b := by
  simp [renewalActionClicks]

theorem interactionCount_append (a b : List Event) :
    interactionCount (a ++ b) = interactionCount a + interactionCount b := by
  simp [interactionCount]

theorem notifications_singleton (t b : String) :
    notifications [Event.notify t b] = [(t, b)] := rfl

theorem notifications_teardown (p b : Bool) :
    notifications (teardown p b) = [] := by
  cases p <;> cases b <;> rfl

theorem countClose_teardown (p b : Bool) :
    countClose (teardown p b) = if b then 1 else 0 := by
  cases p <;> cases b <;> rfl

theorem countStop_teardown (p b : Bool) :
    countStop (teardown p b) = if p then 1 else 0 := by
  cases p <;> cases b <;> rfl

theorem renewalActionClicks_teardown (p b : Bool) :
    renewalActionClicks (teardown p b) = 0 := by
  cases p <;> cases b <;> rfl

theorem interactionCount_teardown (p b : Bool) :
    interactionCount (teardown p b) = 0 := by
  cases p <;> cases b <;> rfl

/-- The trace facts needed about the login stage: it emits no
notification, no teardown event, and no click on a renewal-panel control
(all its interactions target the management button). -/
def cleanLoginTrace (evs : List Event) : Prop :=
  notifications evs = [] ∧ countClose evs = 0 ∧ countStop evs = 0 ∧
    renewalActionClicks evs = 0

theorem cleanLoginTrace_append {a b : List Event}
    (ha : cleanLoginTrace a) (hb : cleanLoginTrace b) :
    cleanLoginTrace (a ++ b) := by
  obtain ⟨h1, h2, h3, h4⟩ := ha
  obtain ⟨g1, g2, g3, g4⟩ := hb
  exact ⟨by simp [notifications_append, h1, g1],
         by simp [countClose_append, h2, g2],
         by simp [countStop_append, h3, g3],
         by simp [renewalActionClicks_append, h4, g4]⟩

theorem cleanLoginTrace_robust (b : Bool) :
    cleanLoginTrace (robustClickEvents b).2 := by
  cases b <;> exact ⟨rfl, rfl, rfl, rfl⟩

theorem cleanLoginTrace_frameSearch (fs : List FrameInfo) :
    cleanLoginTrace (frameSearch fs).2 := by
  induction fs with
  | nil => exact ⟨rfl, rfl, rfl, rfl⟩
  | cons f fs ih =>
      unfold frameSearch
      repeat' split
      · exact cleanLoginTrace_robust f.clickRaises
      · exact cleanLoginTrace_append (cleanLoginTrace_robust f.clickRaises) ih
      · exact ih

theorem cleanLoginTrace_loginSearch (le : LoginEnv) :
    cleanLoginTrace (loginSearch le).2 := by
  have hm : cleanLoginTrace (mainAttempt le).2 := by
    unfold mainAttempt
    repeat' split
    · exact cleanLoginTrace_robust le.mainClickRaises
    · exact ⟨rfl, rfl, rfl, rfl⟩
  unfold loginSearch
  repeat' split
  · exact hm
  · exact cleanLoginTrace_append hm (cleanLoginTrace_frameSearch le.frames)

theorem cleanLoginTrace_login (le : LoginEnv) :
    cleanLoginTrace (login le).events := by
  have hs := cleanLoginTrace_loginSearch le
  unfold login
  repeat' split
  all_goals first
    | exact ⟨rfl, rfl, rfl, rfl⟩
    | exact hs

theorem extend_no_notify_no_teardown (e : ExtendEnv) :
    notifications (extend_contract e).events = [] ∧
    countClose (extend_contract e).events = 0 ∧
    countStop (extend_contract e).events = 0 := by
  unfold extend_contract confirmClickEvents
  rcases hcs : confirmStep e with _ | m | _ <;> simp only [hcs] <;> repeat' split
  all_goals exact ⟨rfl, rfl, rfl⟩

theorem extend_statusSuccess_eq_ok (e : ExtendEnv) :
    (extend_contract e).statusSuccess = (extend_contract e).ok := by
  unfold extend_contract
  repeat' split
  all_goals rfl

theorem countClose_nil : countClose [] = 0 := rfl

theorem countStop_nil : countStop [] = 0 := rfl

theorem countClose_notify_cons (t b : String) (evs : List Event) :
    countClose (Event.notify t b :: evs) = countClose evs := by
  simp [countClose]

theorem countStop_notify_cons (t b : String) (evs : List Event) :
    countStop (Event.notify t b :: evs) = countStop evs := by
  simp [countStop]

theorem renewalActionClicks_notify_cons (t b : String) (evs : List Event) :
    renewalActionClicks (Event.notify t b :: evs) = renewalActionClicks evs := by
  simp [renewalActionClicks]

theorem interactionCount_notify_cons (t b : String) (evs : List Event) :
    interactionCount (Event.notify t b :: evs) = interactionCount evs := by
  simp [interactionCount]

theorem notifications_notify_cons (t b : String) (evs : List Event) :
    notifications (Event.notify t b :: evs) = (t, b) :: notifications evs := by
  simp [notifications]

theorem notifications_nil : notifications [] = [] := rfl

theorem notifications_click_cons (t : Target) (m : ClickAction) (evs : List Event) :
    notifications (Event.click t m :: evs) = notifications evs := by
  simp [notifications]

theorem notifications_clickAttempt_cons (t : Target) (evs : List Event) :
    notifications (Event.clickAttempt t :: evs) = notifications evs := by
  simp [notifications]

/-! ## Concrete environments for witnesses and counterexamples -/

/-- A login environment in which the management button is on the main
page, its click succeeds, and the panel landmark appears. -/
def okLoginEnv : LoginEnv :=
  { preException := false, otpVisible := false, mainHasButton := true,
    mainClickRaises := false, frames := [], panelMarker := true }

/-- The renewal environment of end-to-end scenario B: every stage control
is found, every first click method succeeds, no confirmation dialog
appears, and the success marker appears after dispatch. -/
def scenarioBExtendEnv : ExtendEnv :=
  { entryVisible := true, e1f := false, e1d := false, e1j := false,
    stage2Hit := true, stage2Fallback := false,
    e2f := false, e2d := false, e2j := false, e2combo := false,
    confirmVisible := false, e3f := false, e3d := false, e3j := false,
    e3last := false,
    successMarker := true, stage4Hit := true, stage4Fallback := false,
    e4f := false, e4d := false, e4j := false }

/-- A healthy run environment parameterised by the remaining-time text. -/
def baseRunEnv (t : String) : RunEnv :=
  { pwStartOk := true, launchOk := true, pageSetupOk := true,
    loginEnv := okLoginEnv, timeText := some t,
    extendEnv := scenarioBExtendEnv, fault := none }

/-- Scenario-B-like run in which the stage-3 success marker never appears. -/
def timeoutRunEnv : RunEnv :=
  { baseRunEnv "残り 10 時間" with
    extendEnv := { scenarioBExtendEnv with successMarker := false } }

/-- Run whose renewal attempt fails outright: the entry button is missing. -/
def hardFailRunEnv : RunEnv :=
  { baseRunEnv "残り 10 時間" with
    extendEnv := { scenarioBExtendEnv with entryVisible := false } }

/-- Login environment with no management button in any context. -/
def noElementLoginEnv : LoginEnv :=
  { preException := false, otpVisible := false, mainHasButton := false,
    mainClickRaises := false, frames := [], panelMarker := true }

/-- Login environment in which the button resolves on the main page but
its dispatched click raises. -/
def clickRaisesLoginEnv : LoginEnv :=
  { noElementLoginEnv with mainHasButton := true, mainClickRaises := true }

/-- Run environment in which the step-up-verification marker appears. -/
def otpRunEnv : RunEnv :=
  { baseRunEnv "残り 10 時間" with
    loginEnv := { okLoginEnv with otpVisible := true } }

/-! ## Claims -/

/-- C1: whenever setup and login succeed and remaining-hours extraction
succeeds with value h, the run skips (renewal_status becomes Not Needed,
the renewal stage is never invoked and no renewal-control click happens)
when h ≥ 24, and invokes the renewal stage when h < 24. -/
theorem run_decision_threshold (e : RunEnv) (h : Nat)
    (hs : (setup_browser e).ok = true)
    (hf : e.fault = none)
    (hl : (login e.loginEnv).ok = true)
    (ht : get_remaining_time e.timeText = ExtractResult.ok h) :
    (24 ≤ h →
      (run e).status = "Not Needed" ∧
      StageCall.extend ∉ (run e).calls ∧
      renewalActionClicks (run e).events = 0) ∧
    (h < 24 → StageCall.extend ∈ (run e).calls) := by
  have hclean := (cleanLoginTrace_login e.loginEnv).2.2.2
  constructor
  · intro h24
    simp only [run, hs, hf, hl, ht]
    simp only [Bool.not_true, Bool.not_false, if_true, if_false, h24]
    simp [renewalActionClicks_append, hclean, renewalActionClicks_notify_cons,
          renewalActionClicks_teardown]
  · intro h24
    have h24n : ¬ (24 ≤ h) := by omega
    simp only [run, hs, hf, hl, ht]
    simp only [Bool.not_true, Bool.not_false, if_true, if_false, h24n]
    repeat' split
    all_goals simp_all

/-- C1 witness: the boundary cases — 24 remaining hours skip, 23 and 0
attempt renewal. -/
theorem run_decision_threshold_witness :
    ((run (baseRunEnv "残り 24 時間")).status = "Not Needed" ∧
      StageCall.extend ∉ (run (baseRunEnv "残り 24 時間")).calls ∧
      renewalActionClicks (run (baseRunEnv "残り 24 時間")).events = 0) ∧
    StageCall.extend ∈ (run (baseRunEnv "残り 23 時間")).calls ∧
    StageCall.extend ∈ (run (baseRunEnv "残り 0 時間")).calls :=
  ⟨(run_decision_threshold (baseRunEnv "残り 24 時間") 24 rfl rfl rfl rfl).1
      (by decide),
   (run_decision_threshold (baseRunEnv "残り 23 時間") 23 rfl rfl rfl rfl).2
      (by decide),
   (run_decision_threshold (baseRunEnv "残り 0 時間") 0 rfl rfl rfl rfl).2
      (by decide)⟩

/-- C2 counterexample: in a concrete run where the renewal action is
dispatched but the success marker never appears within the stage timeout,
the outcome is the plain renewal failure — `renewal_status` stays
Unknown and the Diagnostics Sink receives the same ❌ 續期失敗 title as a
run whose renewal fails outright; no probable-success outcome exists. -/
theorem run_marker_timeout_cex :
    (run timeoutRunEnv).status = "Unknown" ∧
    firstTitle (run timeoutRunEnv) = some "❌ 續期失敗" ∧
    firstTitle (run timeoutRunEnv) = firstTitle (run hardFailRunEnv) ∧
    notifications (run timeoutRunEnv).events =
      [("❌ 續期失敗", "續期失敗: 第三階段：等待成功訊息超時")] :=
  ⟨rfl, rfl, rfl, rfl⟩

/-- C2 (amended): a renewal action whose success marker never appears
within the stage timeout is treated as a failure, not as a distinct
probable-success outcome: `extend_contract` raises the stage-3 timeout,
`renewal_status` stays Unknown, and the run reports the ordinary
❌ 續期失敗 notification with the timeout message to the sink. -/
theorem run_marker_timeout_is_failure (e : RunEnv) (h : Nat)
    (hs : (setup_browser e).ok = true)
    (hf : e.fault = none)
    (hl : (login e.loginEnv).ok = true)
    (ht : get_remaining_time e.timeText = ExtractResult.ok h)
    (hh : h < 24)
    (x1 : e.extendEnv.entryVisible = true)
    (x2 : e.extendEnv.e1f = false)
    (x3 : e.extendEnv.stage2Hit = true)
    (x4 : e.extendEnv.e2f = false)
    (x5 : e.extendEnv.confirmVisible = false)
    (x6 : e.extendEnv.successMarker = false) :
    (run e).status = "Unknown" ∧
    notifications (run e).events =
      [("❌ 續期失敗", "續期失敗: 第三階段：等待成功訊息超時")] := by
  have hx : extend_contract e.extendEnv =
      extendFail [Event.click Target.entryBtn ClickAction.clickForce,
                  Event.click Target.extendGreenBtn ClickAction.clickForce]
        "第三階段：等待成功訊息超時" := by
    unfold extend_contract
    simp [x1, x2, x3, x4, x5, x6, tryThree, confirmStep, confirmClickEvents]
  have hln := (cleanLoginTrace_login e.loginEnv).1
  have h24n : ¬ (24 ≤ h) := by omega
  simp only [run, hs, hf, hl, ht, hx]
  simp only [Bool.not_true, Bool.not_false, if_true, if_false, h24n]
  simp [extendFail, notifications_append, hln, notifications_notify_cons,
        notifications_click_cons, notifications_nil, notifications_teardown]

/-- C2 witness: the amended behaviour at the concrete timeout run. -/
theorem run_marker_timeout_is_failure_witness :
    (run timeoutRunEnv).status = "Unknown" ∧
    notifications (run timeoutRunEnv).events =
      [("❌ 續期失敗", "續期失敗: 第三階段：等待成功訊息超時")] :=
  run_marker_timeout_is_failure timeoutRunEnv 10 rfl rfl rfl rfl (by decide)
    rfl rfl rfl rfl rfl rfl

/-- C3 counterexample: in the scenario-B environment (success marker
appears, no confirmation dialog) the renewal run clicks controls labelled
期限を延長する twice — once at stage 2 before the success-marker wait and
once at stage 4 after it — refuting a single renewal-control click
followed only by the success-marker wait. -/
theorem extend_renew_clicked_twice_cex :
    (extend_contract scenarioBExtendEnv).ok = true ∧
    clicksWithLabel "期限を延長する" (extend_contract scenarioBExtendEnv).events = 2 ∧
    clicksWithLabel "期限を延長する" (extend_contract scenarioBExtendEnv).events ≠ 1 ∧
    clicksOnTarget Target.confirmBtn (extend_contract scenarioBExtendEnv).events = 0 ∧
    (extend_contract scenarioBExtendEnv).events =
      [Event.click Target.entryBtn ClickAction.clickForce,
       Event.click Target.extendGreenBtn ClickAction.clickForce,
       Event.click Target.extendBlueBtn ClickAction.clickForce] :=
  ⟨rfl, rfl, by decide, rfl, rfl⟩

/-- C3 (amended): in a renewal run where the success marker appears and
no confirmation dialog is present, the stage structure is: one click on
the entry control, one click on the green 期限を延長する control, the
success-marker wait, then one further click on the blue 期限を延長する
control of the final page — two clicks on renewal-labelled controls in
total and zero clicks on any confirmation control. -/
theorem extend_four_stage_structure (e : ExtendEnv)
    (h1 : e.entryVisible = true) (h2 : e.e1f = false)
    (h3 : e.stage2Hit = true) (h4 : e.e2f = false)
    (h5 : e.confirmVisible = false) (h6 : e.successMarker = true)
    (h7 : e.stage4Hit = true) (h8 : e.e4f = false) :
    (extend_contract e).ok = true ∧
    (extend_contract e).events =
      [Event.click Target.entryBtn ClickAction.clickForce,
       Event.click Target.extendGreenBtn ClickAction.clickForce,
       Event.click Target.extendBlueBtn ClickAction.clickForce] ∧
    clicksWithLabel "期限を延長する" (extend_contract e).events = 2 ∧
    clicksOnTarget Target.entryBtn (extend_contract e).events = 1 ∧
    clicksOnTarget Target.confirmBtn (extend_contract e).events = 0 := by
  have hx : extend_contract e =
      { ok := true, statusSuccess := true, errMsg := none,
        events := [Event.click Target.entryBtn ClickAction.clickForce,
                   Event.click Target.extendGreenBtn ClickAction.clickForce,
                   Event.click Target.extendBlueBtn ClickAction.clickForce] } := by
    unfold extend_contract
    simp [h1, h2, h3, h4, h5, h6, h7, h8, tryThree, confirmStep, confirmClickEvents]
  rw [hx]
  exact ⟨rfl, rfl, rfl, rfl, rfl⟩

/-- C3 witness: the amended stage structure at the concrete scenario-B
environment. -/
theorem extend_four_stage_structure_witness :
    (extend_contract scenarioBExtendEnv).ok = true ∧
    (extend_contract scenarioBExtendEnv).events =
      [Event.click Target.entryBtn ClickAction.clickForce,
       Event.click Target.extendGreenBtn ClickAction.clickForce,
       Event.click Target.extendBlueBtn ClickAction.clickForce] ∧
    clicksWithLabel "期限を延長する" (extend_contract scenarioBExtendEnv).events = 2 ∧
    clicksOnTarget Target.entryBtn (extend_contract scenarioBExtendEnv).events = 1 ∧
    clicksOnTarget Target.confirmBtn (extend_contract scenarioBExtendEnv).events = 0 :=
  extend_four_stage_structure scenarioBExtendEnv rfl rfl rfl rfl rfl rfl rfl rfl

/-- C4 counterexample: the first method of the renewal-stage click loop
is `click(force=True)`, which bypasses hit-testing, not a standard
hit-testing click as the claim requires; and the login-stage
`robust_click` uses a single method, not three. -/
theorem click_escalation_order_cex :
    extendStageMethods ≠ specClickEscalation ∧
    extendStageMethods.head? = some ClickAction.clickForce ∧
    bypassesHitTesting ClickAction.clickForce = true ∧
    specClickEscalation.head? = some ClickAction.clickStandard ∧
    bypassesHitTesting ClickAction.clickStandard = false ∧
    loginRobustClickMethods.length ≠ 3 :=
  ⟨by decide, rfl, rfl, rfl, rfl, by decide⟩

/-- C4 (amended): the renewal-stage click loops escalate through exactly
three methods in the fixed order forced click, dispatched click event,
scripted JS click, stopping at the first that does not raise; the
login-stage management-button click uses the single dispatched-event
method with no escalation. -/
theorem click_escalation_fixed_order (fR dR jR : Bool) :
    tryThree fR dR jR =
      (extendStageMethods.filter fun m => !raiseFlagOf fR dR jR m).head? ∧
    extendStageMethods =
      [ClickAction.clickForce, ClickAction.dispatchEvent, ClickAction.jsClick] ∧
    loginRobustClickMethods = [ClickAction.dispatchEvent] := by
  cases fR <;> cases dR <;> cases jR <;> exact ⟨rfl, rfl, rfl⟩

/-- C5 counterexample: the login-stage engine returns the identical
failure outcome — same boolean, same 終極策略失敗 message — for a world
with no management button anywhere and for a world where the button
resolves but its click raises; the two fault classes are conflated. -/
theorem login_notfound_allfail_conflated_cex :
    noElementLoginEnv.mainHasButton = false ∧
    noElementLoginEnv.frames = [] ∧
    clickRaisesLoginEnv.mainHasButton = true ∧
    clickRaisesLoginEnv.mainClickRaises = true ∧
    (login noElementLoginEnv).ok = (login clickRaisesLoginEnv).ok ∧
    (login noElementLoginEnv).errMsg = (login clickRaisesLoginEnv).errMsg ∧
    (login noElementLoginEnv).errMsg = some clickFailMsg :=
  ⟨rfl, rfl, rfl, rfl, rfl, rfl, rfl⟩

/-- C5 (amended): whenever the login-stage click search ends without a
successful click — whether because no (context, locator) pair matched or
because a matched element's single dispatched click raised — `login`
returns the one conflated failure outcome with the same error message. -/
theorem login_click_failure_single_outcome (le : LoginEnv)
    (h1 : le.preException = false) (h2 : le.otpVisible = false)
    (h3 : (loginSearch le).1 = false) :
    (login le).ok = false ∧ (login le).errMsg = some clickFailMsg := by
  unfold login
  simp [h1, h2, h3]

/-- C5 witness: the amended conflated outcome at the no-element login
environment. -/
theorem login_click_failure_single_outcome_witness :
    (login noElementLoginEnv).ok = false ∧
    (login noElementLoginEnv).errMsg = some clickFailMsg :=
  login_click_failure_single_outcome noElementLoginEnv rfl rfl rfl

/-- C6: remaining-time extraction reports the no-element outcome and the
pattern-mismatch outcome through distinct results with distinct messages,
never conflating them, and a successful parse of the fixed pattern
(`残り`, whitespace, digits, whitespace, `時間`) yields the base-10
non-negative integer value of the digits. -/
theorem extract_outcomes_distinct :
    get_remaining_time none = ExtractResult.notFound nfMsg ∧
    (∀ t : String, findMatch t.toList = none →
      get_remaining_time (some t) = ExtractResult.patternMismatch pmMsg) ∧
    (∀ a b : String, ExtractResult.notFound a ≠ ExtractResult.patternMismatch b) ∧
    nfMsg ≠ pmMsg ∧
    get_remaining_time (some "残り 5 時間") = ExtractResult.ok 5 ∧
    get_remaining_time (some "残り 507 時間") = ExtractResult.ok 507 := by
  refine ⟨rfl, ?_, ?_, by decide, rfl, rfl⟩
  · intro t ht
    have ht2 : findMatch t.data = none := ht
    simp [get_remaining_time, ht2]
  · intro a b hcontra
    exact ExtractResult.noConfusion hcontra

/-- C6 witness: a text containing the marker and unit tokens but a
non-numeric gap is reported as the pattern-mismatch outcome. -/
theorem extract_outcomes_distinct_witness :
    get_remaining_time (some "残りわずか 時間") = ExtractResult.patternMismatch pmMsg :=
  extract_outcomes_distinct.2.1 "残りわずか 時間" (by decide)

/-- C7: when the step-up-verification marker (認証コード) is detected
after login submission, the run terminates at the login stage with the
distinct verification-code error message, before any panel-reaching
attempt: the extraction and renewal stages are never invoked, zero
interaction attempts happen anywhere, the status stays Unknown, and the
message differs from every other login failure message. -/
theorem run_stepup_terminal (e : RunEnv)
    (hs : (setup_browser e).ok = true)
    (hf : e.fault = none)
    (h1 : e.loginEnv.preException = false)
    (h2 : e.loginEnv.otpVisible = true) :
    (run e).status = "Unknown" ∧
    (run e).calls = [StageCall.setup, StageCall.login] ∧
    notifications (run e).events = [("❌ 登錄/點擊失敗", otpMsg)] ∧
    interactionCount (run e).events = 0 ∧
    otpMsg ≠ clickFailMsg ∧ otpMsg ≠ panelValidateFailMsg ∧
    otpMsg ≠ loginCriticalMsg := by
  have hlog : login e.loginEnv =
      { ok := false, errMsg := some otpMsg, events := [] } := by
    unfold login
    simp [h1, h2]
  simp only [run, hs, hf, hlog]
  simp only [Bool.not_true, Bool.not_false, if_true, if_false]
  refine ⟨rfl, rfl, ?_, ?_, by decide, by decide, by decide⟩
  · simp [notifications_notify_cons, notifications_teardown, notifications_nil]
  · simp [interactionCount_notify_cons, interactionCount_teardown]

/-- C7 witness: the step-up-verification termination at the concrete
OTP-marker run environment. -/
theorem run_stepup_terminal_witness :
    (run otpRunEnv).status = "Unknown" ∧
    (run otpRunEnv).calls = [StageCall.setup, StageCall.login] ∧
    notifications (run otpRunEnv).events = [("❌ 登錄/點擊失敗", otpMsg)] ∧
    interactionCount (run otpRunEnv).events = 0 ∧
    otpMsg ≠ clickFailMsg ∧ otpMsg ≠ panelValidateFailMsg ∧
    otpMsg ≠ loginCriticalMsg :=
  run_stepup_terminal otpRunEnv rfl rfl rfl rfl

/-- C8: every run emits exactly one summary notification, whichever
branch concluded it, and the notification carries one of the seven
pairwise-distinct stage titles naming the concluding stage; its body is
the stage's reason message. -/
theorem run_exactly_one_notification (e : RunEnv) :
    (notifications (run e).events).length = 1 ∧
    (∃ t b, notifications (run e).events = [(t, b)] ∧ t ∈ runTitles) ∧
    runTitles.Nodup := by
  have hl := (cleanLoginTrace_login e.loginEnv).1
  have hx := (extend_no_notify_no_teardown e.extendEnv).1
  simp only [run]
  repeat' split
  all_goals
    simp only [notifications_append, hl, hx, notifications_teardown,
               notifications_notify_cons, notifications_nil,
               List.nil_append, List.append_nil]
  all_goals exact ⟨rfl, ⟨_, _, rfl, by decide⟩, by decide⟩

/-- C9: whichever state the run terminates in — including the unexpected
top-level fault paths — the teardown runs: the browser close and the
runtime stop each happen exactly once when the corresponding resource was
acquired during setup, and never otherwise. -/
theorem run_teardown_guaranteed (e : RunEnv) :
    countClose (run e).events =
      (if (setup_browser e).browserAcquired then 1 else 0) ∧
    countStop (run e).events =
      (if (setup_browser e).pwAcquired then 1 else 0) := by
  have hl1 := (cleanLoginTrace_login e.loginEnv).2.1
  have hl2 := (cleanLoginTrace_login e.loginEnv).2.2.1
  have hx := extend_no_notify_no_teardown e.extendEnv
  simp only [run]
  repeat' split
  all_goals
    simp only [countClose_append, countStop_append, hl1, hl2, hx.2.1, hx.2.2,
               countClose_notify_cons, countStop_notify_cons,
               countClose_teardown, countStop_teardown, List.nil_append]
  all_goals simp_all [countClose_nil, countStop_nil]

/-- C10: in every run the final renewal_status is one of exactly the four
values Unknown, Not Needed, Success, Critical Error — each reachable at a
concrete environment — and the status is Unknown exactly when the run
concluded through one of the four failure notifications (setup, login,
extraction, renewal); no distinct failure status value exists. -/
theorem run_status_four_values (e : RunEnv) :
    (run e).status ∈ runStatuses ∧
    ((run e).status = "Unknown" ↔ firstTitle (run e) ∈ failTitles.map some) ∧
    (run (baseRunEnv "残り 30 時間")).status = "Not Needed" ∧
    (run (baseRunEnv "残り 10 時間")).status = "Success" ∧
    (run hardFailRunEnv).status = "Unknown" ∧
    (run { baseRunEnv "残り 10 時間" with
             fault := some FaultPoint.beforeLogin }).status = "Critical Error" := by
  have hl := (cleanLoginTrace_login e.loginEnv).1
  have hx := (extend_no_notify_no_teardown e.extendEnv).1
  have hss := extend_statusSuccess_eq_ok e.extendEnv
  refine ⟨?_, ?_, rfl, rfl, rfl, rfl⟩
  · simp only [run, hss]
    repeat' split
    all_goals simp_all [runStatuses]
  · simp only [run, hss]
    repeat' split
    all_goals
      simp only [firstTitle, notifications_append, hl, hx, notifications_teardown,
                 notifications_notify_cons, notifications_nil, List.nil_append,
                 List.append_nil]
    all_goals first
      | decide
      | simp_all [failTitles]
